import Mathlib

/-!
Shallow embedding of the logger package (logger/logger.go) of the
jbjoret/commons repository: a structured-logging facade over the external
go.uber.org/zap engine.  The machine state is the process-wide logger:
the encoder configuration fixed in the package init function, the atomic
severity threshold, and the list of JSON records written to the sink so
far.  The external collaborator (zap / zapcore) is modelled by its level
arithmetic, its level text parser, and its threshold gate, translated
from the zap sources the package delegates to.
-/

namespace Logger

/-- zapcore.Level is an int8 in Go; DebugLevel = -1 through FatalLevel = 5. -/
abbrev Level := Int

/-- zapcore.DebugLevel. -/
abbrev DebugLevel : Level := -1

/-- zapcore.InfoLevel. -/
abbrev InfoLevel : Level := 0

/-- zapcore.WarnLevel. -/
abbrev WarnLevel : Level := 1

/-- zapcore.ErrorLevel. -/
abbrev ErrorLevel : Level := 2

/-- zapcore.DPanicLevel. -/
abbrev DPanicLevel : Level := 3

/-- zapcore.PanicLevel. -/
abbrev PanicLevel : Level := 4

/-- zapcore.FatalLevel. -/
abbrev FatalLevel : Level := 5

/-- Go strings.ToLower, restricted to its ASCII action (the only part the
alias strings of this package exercise): each character A-Z is mapped to
its lowercase form, every other character is unchanged. -/
def goToLower (s : String) : String := String.mk (s.data.map Char.toLower)

/-- zapcore.Level.String(): the canonical lowercase name of a level, or a
Level(n) placeholder for an out-of-range value. -/
def levelString (l : Level) : String :=
  if l = DebugLevel then "debug"
  else if l = InfoLevel then "info"
  else if l = WarnLevel then "warn"
  else if l = ErrorLevel then "error"
  else if l = DPanicLevel then "dpanic"
  else if l = PanicLevel then "panic"
  else if l = FatalLevel then "fatal"
  else "Level(" ++ toString l ++ ")"

/-- zapcore.Level.unmarshalText: the one-shot text match used by
UnmarshalText.  Note the empty string is accepted as InfoLevel (zap makes
the zero value useful). -/
def unmarshalText (text : String) : Option Level :=
  if text = "debug" ∨ text = "DEBUG" then some DebugLevel
  else if text = "info" ∨ text = "INFO" ∨ text = "" then some InfoLevel
  else if text = "warn" ∨ text = "WARN" then some WarnLevel
  else if text = "error" ∨ text = "ERROR" then some ErrorLevel
  else if text = "dpanic" ∨ text = "DPANIC" then some DPanicLevel
  else if text = "panic" ∨ text = "PANIC" then some PanicLevel
  else if text = "fatal" ∨ text = "FATAL" then some FatalLevel
  else none

/-- zapcore.Level.Set (via UnmarshalText): tries the text as written, then
lowercased; failure in Go is a returned error, modelled as none. -/
def levelSet (s : String) : Option Level :=
  match unmarshalText s with
  | some l => some l
  | none => unmarshalText (goToLower s)

/-- The encoder/sink configuration the package init function fixes: JSON
encoding, "timestamp" time key, ISO8601 time encoding, caller
information, standard output sink. -/
structure EncoderConfig where
  encoding : String
  timeKey : String
  timeEncoding : String
  withCaller : Bool
  sink : String
deriving DecidableEq

/-- One JSON log line, as observable output: its level name, its msg, and
its extra fields as key/value pairs. -/
structure LogRecord where
  level : String
  msg : String
  fields : List (String × String)
deriving DecidableEq

/-- The process-wide logger state: the package-level zap.Logger together
with its zap.AtomicLevel threshold, plus the lines written so far. -/
structure LoggerState where
  config : EncoderConfig
  threshold : Level
  output : List LogRecord
deriving DecidableEq

/-- The configuration built in the package init function. -/
def initialEncoderConfig : EncoderConfig :=
  { encoding := "json", timeKey := "timestamp", timeEncoding := "ISO8601",
    withCaller := true, sink := "stdout" }

/-- The state after the package init function: default threshold
InfoLevel, nothing written. -/
def initialState : LoggerState :=
  { config := initialEncoderConfig, threshold := InfoLevel, output := [] }

/-- zap emit path (Logger.check / Core.Check / CheckedEntry.Write): the
record is written exactly when the entry level is at or above the
current threshold (zapcore Level.Enabled: lvl >= l). -/
def emit (lvl : Level) (msg : String) (fields : List (String × String))
    (st : LoggerState) : LoggerState :=
  if st.threshold ≤ lvl then
    { st with output := st.output ++ [{ level := levelString lvl, msg := msg, fields := fields }] }
  else st

/-- logger.Debug: prints a message at debug level. -/
def Debug (msg : String) (fields : List (String × String)) (st : LoggerState) : LoggerState :=
  emit DebugLevel msg fields st

/-- logger.Info: prints a message at info level. -/
def Info (msg : String) (fields : List (String × String)) (st : LoggerState) : LoggerState :=
  emit InfoLevel msg fields st

/-- logger.Warn: prints a message at warn level. -/
def Warn (msg : String) (fields : List (String × String)) (st : LoggerState) : LoggerState :=
  emit WarnLevel msg fields st

/-- logger.Error: prints a message at error level. -/
def Error (msg : String) (fields : List (String × String)) (st : LoggerState) : LoggerState :=
  emit ErrorLevel msg fields st

/-- logger.Fatal: prints a message at fatal level, then calls os.Exit(1)
(zap WriteThenFatal).  The second component is the process exit code. -/
def Fatal (msg : String) (fields : List (String × String)) (st : LoggerState) :
    LoggerState × Int :=
  (emit FatalLevel msg fields st, 1)

/-- The level parse performed inside SetLogLevel: the switch over the
lowercased input with its fixed aliases, falling back to
zapcore.Level.Set on the original input. -/
def parseLevel (level : String) : Option Level :=
  if goToLower level = "debug" then some DebugLevel
  else if goToLower level = "info" then some InfoLevel
  else if goToLower level = "warn" ∨ goToLower level = "warning" then some WarnLevel
  else if goToLower level = "error" then some ErrorLevel
  else if goToLower level = "dpanic" then some DPanicLevel
  else if goToLower level = "panic" then some PanicLevel
  else if goToLower level = "fatal" then some FatalLevel
  else levelSet level

/-- logger.SetLogLevel: on a successful parse stores the new level in the
atomic threshold and returns nil; on failure returns the error built by
fmt.Errorf without touching the threshold. -/
def SetLogLevel (level : String) (st : LoggerState) : Option String × LoggerState :=
  match parseLevel level with
  | some l => (none, { st with threshold := l })
  | none => (some ("invalid log level string: " ++ level), st)

/-- logger.GetLogLevel: the atomic level rendered as a string
(zap.AtomicLevel.String delegates to Level.String). -/
def GetLogLevel (st : LoggerState) : String := levelString st.threshold

/-- logger.Init: reads LOG_LEVEL (passed here explicitly; os.Getenv yields
the empty string when the variable is unset) and reacts as the Go code
does: nonempty value through SetLogLevel with a Warn on failure and an
Info on success, empty value a plain Info notice. -/
def Init (logLevelEnv : String) (st : LoggerState) : LoggerState :=
  if logLevelEnv ≠ "" then
    match SetLogLevel logLevelEnv st with
    | (some err, st1) =>
        Warn "Invalid LOG_LEVEL provided, using default." [("value", logLevelEnv), ("error", err)] st1
    | (none, st1) =>
        Info "Log level set from environment." [("level", logLevelEnv)] st1
  else
    Info "Log level is not set, using default \x27info\x27." [] st

/-- The aliases recognized by the switch in SetLogLevel. -/
def recognizedAliases : List String :=
  ["debug", "info", "warn", "warning", "error", "dpanic", "panic", "fatal"]

/-- The canonical lowercase severity names. -/
def severityNames : List String :=
  ["debug", "info", "warn", "error", "dpanic", "panic", "fatal"]

/-- The level-mutating entry points of the package, for reasoning about
arbitrary call sequences. -/
inductive ApiCall where
  | set (s : String)
  | initEnv (s : String)

/-- Effect of one entry-point call on the logger state. -/
def applyCall (st : LoggerState) : ApiCall → LoggerState
  | .set s => (SetLogLevel s st).2
  | .initEnv s => Init s st

/-- Run a sequence of entry-point calls from the freshly initialized
state. -/
def runCalls (calls : List ApiCall) : LoggerState :=
  calls.foldl applyCall initialState

/-- A state with threshold WarnLevel and empty sink, for concrete runs. -/
def warnState : LoggerState :=
  { config := initialEncoderConfig, threshold := WarnLevel, output := [] }

/-- A state with threshold ErrorLevel and empty sink, for concrete runs. -/
def errorState : LoggerState :=
  { config := initialEncoderConfig, threshold := ErrorLevel, output := [] }

/-- The threshold stays inside the int8 range of the seven severities. -/
def thresholdInRange (st : LoggerState) : Prop :=
  DebugLevel ≤ st.threshold ∧ st.threshold ≤ FatalLevel

theorem emit_threshold (lvl : Level) (m : String) (fs : List (String × String))
    (st : LoggerState) : (emit lvl m fs st).threshold = st.threshold := by
  unfold emit; split <;> rfl

theorem emit_config (lvl : Level) (m : String) (fs : List (String × String))
    (st : LoggerState) : (emit lvl m fs st).config = st.config := by
  unfold emit; split <;> rfl

theorem levelString_debug : levelString DebugLevel = "debug" := rfl

theorem levelString_info : levelString InfoLevel = "info" := rfl

theorem levelString_warn : levelString WarnLevel = "warn" := rfl

theorem levelString_error : levelString ErrorLevel = "error" := rfl

theorem levelString_fatal : levelString FatalLevel = "fatal" := rfl

theorem emit_if (lvl : Level) (m : String) (fs : List (String × String)) (st : LoggerState) :
    if st.threshold ≤ lvl
    then emit lvl m fs st =
      { st with output := st.output ++ [{ level := levelString lvl, msg := m, fields := fs }] }
    else emit lvl m fs st = st := by
  unfold emit
  split_ifs with h <;> rfl

theorem unmarshalText_range (s : String) (l : Level) (h : unmarshalText s = some l) :
    DebugLevel ≤ l ∧ l ≤ FatalLevel := by
  unfold unmarshalText at h
  split_ifs at h <;> first
    | exact Option.noConfusion h
    | (injection h with h; subst h; decide)

theorem levelSet_range (s : String) (l : Level) (h : levelSet s = some l) :
    DebugLevel ≤ l ∧ l ≤ FatalLevel := by
  unfold levelSet at h
  cases hu : unmarshalText s with
  | some x =>
      rw [hu] at h; injection h with h; subst h; exact unmarshalText_range s x hu
  | none =>
      rw [hu] at h; exact unmarshalText_range _ _ h

theorem parseLevel_range (s : String) (l : Level) (h : parseLevel s = some l) :
    DebugLevel ≤ l ∧ l ≤ FatalLevel := by
  unfold parseLevel at h
  split_ifs at h <;> first
    | (injection h with h; subst h; decide)
    | exact levelSet_range s l h

theorem parseLevel_of_not_alias (s : String) (h : goToLower s ∉ recognizedAliases) :
    parseLevel s = levelSet s := by
  simp only [recognizedAliases, List.mem_cons, List.not_mem_nil, or_false] at h
  push_neg at h
  obtain ⟨h1, h2, h3, h4, h5, h6, h7, h8⟩ := h
  unfold parseLevel
  rw [if_neg h1, if_neg h2, if_neg (not_or.mpr ⟨h3, h4⟩), if_neg h5, if_neg h6,
    if_neg h7, if_neg h8]

theorem setLogLevel_config (s : String) (st : LoggerState) :
    ((SetLogLevel s st).2).config = st.config := by
  cases hp : parseLevel s <;> simp [SetLogLevel, hp]

theorem info_output (m : String) (fs : List (String × String)) (st : LoggerState) :
    (Info m fs st).threshold = st.threshold ∧
    (Info m fs st).output =
      (if st.threshold ≤ InfoLevel
       then st.output ++ [{ level := "info", msg := m, fields := fs }]
       else st.output) := by
  unfold Info emit
  constructor
  · split_ifs <;> rfl
  · split_ifs <;> simp [levelString_info]

theorem warn_output (m : String) (fs : List (String × String)) (st : LoggerState) :
    (Warn m fs st).threshold = st.threshold ∧
    (Warn m fs st).output =
      (if st.threshold ≤ WarnLevel
       then st.output ++ [{ level := "warn", msg := m, fields := fs }]
       else st.output) := by
  unfold Warn emit
  constructor
  · split_ifs <;> rfl
  · split_ifs <;> simp [levelString_warn]

theorem setLogLevel_range (s : String) (st : LoggerState) (h : thresholdInRange st) :
    thresholdInRange (SetLogLevel s st).2 := by
  cases hp : parseLevel s with
  | some l =>
      have hr := parseLevel_range s l hp
      simp [SetLogLevel, hp, thresholdInRange, hr.1, hr.2]
  | none => simpa [SetLogLevel, hp, thresholdInRange] using h

theorem init_range (s : String) (st : LoggerState) (h : thresholdInRange st) :
    thresholdInRange (Init s st) := by
  unfold Init
  split_ifs with hne
  · have hr := setLogLevel_range s st h
    cases hset : SetLogLevel s st with
    | mk e st1 =>
      rw [hset] at hr
      cases e with
      | some err =>
          simpa [Warn, thresholdInRange, emit_threshold] using hr
      | none =>
          simpa [Info, thresholdInRange, emit_threshold] using hr
  · simpa [Info, thresholdInRange, emit_threshold] using h

/-- C1: with the threshold at WarnLevel, Debug and Info write nothing and
leave the state untouched, while Warn and Error each append exactly one
record carrying the given msg; in general each of the four emit
functions appends its record exactly when its own level is at or above
the current threshold, and otherwise leaves the whole state unchanged. -/
theorem C1_emit_gating (st : LoggerState) (m : String) (fs : List (String × String))
    (h : st.threshold = WarnLevel) :
    Debug m fs st = st ∧ Info m fs st = st ∧
    (Warn m fs st).output = st.output ++ [{ level := "warn", msg := m, fields := fs }] ∧
    (Error m fs st).output = st.output ++ [{ level := "error", msg := m, fields := fs }] ∧
    (∀ st1 : LoggerState,
      (if st1.threshold ≤ DebugLevel
        then Debug m fs st1 =
          { st1 with output := st1.output ++ [{ level := "debug", msg := m, fields := fs }] }
        else Debug m fs st1 = st1) ∧
      (if st1.threshold ≤ InfoLevel
        then Info m fs st1 =
          { st1 with output := st1.output ++ [{ level := "info", msg := m, fields := fs }] }
        else Info m fs st1 = st1) ∧
      (if st1.threshold ≤ WarnLevel
        then Warn m fs st1 =
          { st1 with output := st1.output ++ [{ level := "warn", msg := m, fields := fs }] }
        else Warn m fs st1 = st1) ∧
      (if st1.threshold ≤ ErrorLevel
        then Error m fs st1 =
          { st1 with output := st1.output ++ [{ level := "error", msg := m, fields := fs }] }
        else Error m fs st1 = st1)) := by
  refine ⟨?_, ?_, ?_, ?_, ?_⟩
  · unfold Debug emit; rw [if_neg (by rw [h]; decide)]
  · unfold Info emit; rw [if_neg (by rw [h]; decide)]
  · unfold Warn emit; rw [if_pos (by rw [h])]; simp [levelString_warn]
  · unfold Error emit; rw [if_pos (by rw [h]; decide)]; simp [levelString_error]
  · intro st1
    refine ⟨?_, ?_, ?_, ?_⟩ <;>
      simp only [Debug, Info, Warn, Error, levelString_debug, levelString_info,
        levelString_warn, levelString_error] <;>
      simpa [levelString_debug, levelString_info, levelString_warn, levelString_error]
        using emit_if _ m fs st1

/-- C1 witness: in the concrete Warn-threshold state, Debug is a no-op and
Warn writes its single record. -/
theorem C1_emit_gating_w :
    warnState.threshold = WarnLevel ∧
    Debug "x" [] warnState = warnState ∧
    (Warn "x" [] warnState).output = [{ level := "warn", msg := "x", fields := [] }] := by
  refine ⟨rfl, ?_, ?_⟩
  · exact (C1_emit_gating warnState "x" [] rfl).1
  · have h3 := (C1_emit_gating warnState "x" [] rfl).2.2.1
    simpa using h3

/-- C2: a string that matches no recognized alias and also fails the
fallback structured parse makes SetLogLevel return the error naming the
invalid input with the state exactly unchanged; a successful parse
stores the parsed level and returns no error. -/
theorem C2_setLogLevel_error_or_replace (s : String) (st : LoggerState) :
    (goToLower s ∉ recognizedAliases → levelSet s = none →
      SetLogLevel s st = (some ("invalid log level string: " ++ s), st)) ∧
    (∀ l : Level, parseLevel s = some l →
      SetLogLevel s st = (none, { st with threshold := l })) := by
  constructor
  · intro hmem hfb
    have hp : parseLevel s = none := by rw [parseLevel_of_not_alias s hmem]; exact hfb
    simp [SetLogLevel, hp]
  · intro l hl
    simp [SetLogLevel, hl]

/-- C2 witness: the concrete invalid input is rejected with the expected
error and leaves the fresh state untouched. -/
theorem C2_setLogLevel_error_or_replace_w :
    goToLower "not-a-level" ∉ recognizedAliases ∧ levelSet "not-a-level" = none ∧
    SetLogLevel "not-a-level" initialState =
      (some ("invalid log level string: " ++ "not-a-level"), initialState) :=
  ⟨by decide, by decide,
    (C2_setLogLevel_error_or_replace "not-a-level" initialState).1 (by decide) (by decide)⟩

/-- C3: for every input whose lowercasing is a recognized alias,
SetLogLevel succeeds and GetLogLevel then returns the canonical
lowercase name, warning normalizing to warn. -/
theorem C3_alias_roundtrip (s : String) (st : LoggerState)
    (h : goToLower s ∈ recognizedAliases) :
    (SetLogLevel s st).1 = none ∧
    GetLogLevel (SetLogLevel s st).2 =
      (if goToLower s = "warning" then "warn" else goToLower s) := by
  simp only [recognizedAliases, List.mem_cons, List.not_mem_nil, or_false] at h
  rcases h with h | h | h | h | h | h | h | h <;>
    simp [SetLogLevel, parseLevel, h, GetLogLevel, levelString] <;> decide

/-- C3 witness: the uppercase WARNING alias succeeds and reads back as
warn. -/
theorem C3_alias_roundtrip_w :
    goToLower "WARNING" ∈ recognizedAliases ∧
    ((SetLogLevel "WARNING" initialState).1 = none ∧
     GetLogLevel (SetLogLevel "WARNING" initialState).2 =
       (if goToLower "WARNING" = "warning" then "warn" else goToLower "WARNING")) :=
  ⟨by decide, C3_alias_roundtrip "WARNING" initialState (by decide)⟩

/-- C4 counterexample: with LOG_LEVEL set to the valid value error, Init
updates the threshold but writes no informational confirmation line at
all, because the Info call is filtered by the freshly raised threshold. -/
theorem C4_cex :
    (Init "error" initialState).threshold = ErrorLevel ∧
    (Init "error" initialState).output = [] := by decide

/-- C4 (amended): for every valid nonempty LOG_LEVEL value, Init updates
the threshold to the parsed level, and the informational confirmation
line is written exactly when that new level is at most InfoLevel; for
stricter levels no confirmation is observable. -/
theorem C4_init_valid (s : String) (l : Level) (st : LoggerState)
    (hne : s ≠ "") (hp : parseLevel s = some l) :
    (Init s st).threshold = l ∧
    (Init s st).output =
      (if l ≤ InfoLevel
       then st.output ++ [{ level := "info", msg := "Log level set from environment.",
                            fields := [("level", s)] }]
       else st.output) := by
  have hset : SetLogLevel s st = (none, { st with threshold := l }) := by
    simp [SetLogLevel, hp]
  have hinit : Init s st =
      Info "Log level set from environment." [("level", s)] { st with threshold := l } := by
    unfold Init
    rw [if_pos hne, hset]
  have ho := info_output "Log level set from environment." [("level", s)]
    { st with threshold := l }
  rw [hinit]
  exact ⟨ho.1, by simpa using ho.2⟩

/-- C4 witness: LOG_LEVEL debug moves the fresh threshold to DebugLevel
and the confirmation line is written. -/
theorem C4_init_valid_w :
    ("debug" ≠ "" ∧ parseLevel "debug" = some DebugLevel) ∧
    ((Init "debug" initialState).threshold = DebugLevel ∧
     (Init "debug" initialState).output =
       (if DebugLevel ≤ InfoLevel
        then initialState.output ++
          [{ level := "info", msg := "Log level set from environment.",
             fields := [("level", "debug")] }]
        else initialState.output)) :=
  ⟨⟨by decide, by decide⟩,
    C4_init_valid "debug" DebugLevel initialState (by decide) (by decide)⟩

/-- C5 counterexample: with the prior threshold at ErrorLevel and an
invalid LOG_LEVEL, Init leaves the threshold unchanged but writes no
warning at all: the Warn call is filtered by the prior threshold. -/
theorem C5_cex :
    (Init "bogus" errorState).threshold = ErrorLevel ∧
    (Init "bogus" errorState).output = [] := by decide

/-- C5 (amended): for an invalid nonempty LOG_LEVEL value, Init leaves the
threshold unchanged and never surfaces the parse error (its result is an
ordinary state); the warning line naming the offending value is written
exactly when the prior threshold is at most WarnLevel. -/
theorem C5_init_invalid (s : String) (st : LoggerState)
    (hne : s ≠ "") (hp : parseLevel s = none) :
    (Init s st).threshold = st.threshold ∧
    (Init s st).output =
      (if st.threshold ≤ WarnLevel
       then st.output ++
         [{ level := "warn", msg := "Invalid LOG_LEVEL provided, using default.",
            fields := [("value", s), ("error", "invalid log level string: " ++ s)] }]
       else st.output) := by
  have hset : SetLogLevel s st = (some ("invalid log level string: " ++ s), st) := by
    simp [SetLogLevel, hp]
  have hinit : Init s st =
      Warn "Invalid LOG_LEVEL provided, using default."
        [("value", s), ("error", "invalid log level string: " ++ s)] st := by
    unfold Init
    rw [if_pos hne, hset]
  have ho := warn_output "Invalid LOG_LEVEL provided, using default."
    [("value", s), ("error", "invalid log level string: " ++ s)] st
  rw [hinit]
  exact ⟨ho.1, ho.2⟩

/-- C5 witness: from the fresh Info-threshold state an invalid LOG_LEVEL
keeps the threshold and writes the warning naming the offending value. -/
theorem C5_init_invalid_w :
    ("bogus" ≠ "" ∧ parseLevel "bogus" = none) ∧
    ((Init "bogus" initialState).threshold = initialState.threshold ∧
     (Init "bogus" initialState).output =
       (if initialState.threshold ≤ WarnLevel
        then initialState.output ++
          [{ level := "warn", msg := "Invalid LOG_LEVEL provided, using default.",
             fields := [("value", "bogus"), ("error", "invalid log level string: " ++ "bogus")] }]
        else initialState.output)) :=
  ⟨⟨by decide, by decide⟩, C5_init_invalid "bogus" initialState (by decide) (by decide)⟩

/-- C6 counterexample: with the prior threshold at WarnLevel and LOG_LEVEL
unset (empty), Init keeps the threshold but writes no informational note
at all: the Info call is filtered by the prior threshold. -/
theorem C6_cex :
    (Init "" warnState).threshold = WarnLevel ∧
    (Init "" warnState).output = [] := by decide

/-- C6 (amended): with LOG_LEVEL unset or empty, Init leaves the threshold
at its prior value (InfoLevel in the freshly initialized state), and the
informational default-in-effect note is written exactly when that prior
threshold is at most InfoLevel. -/
theorem C6_init_unset (st : LoggerState) :
    (Init "" st).threshold = st.threshold ∧
    (Init "" st).output =
      (if st.threshold ≤ InfoLevel
       then st.output ++
         [{ level := "info", msg := "Log level is not set, using default \x27info\x27.",
            fields := [] }]
       else st.output) := by
  have hinit : Init "" st =
      Info "Log level is not set, using default \x27info\x27." [] st := by
    unfold Init
    rw [if_neg (by simp)]
  have ho := info_output "Log level is not set, using default \x27info\x27." [] st
  rw [hinit]
  exact ⟨ho.1, ho.2⟩

/-- C7: for every threshold inside the Severity range, Fatal writes its
record and yields the non-zero process exit code 1. -/
theorem C7_fatal_writes_and_exits (st : LoggerState) (m : String)
    (fs : List (String × String))
    (h : DebugLevel ≤ st.threshold ∧ st.threshold ≤ FatalLevel) :
    ((Fatal m fs st).1).output =
      st.output ++ [{ level := "fatal", msg := m, fields := fs }] ∧
    (Fatal m fs st).2 = 1 ∧ (Fatal m fs st).2 ≠ 0 := by
  refine ⟨?_, rfl, show (1 : Int) ≠ 0 by decide⟩
  unfold Fatal emit
  rw [if_pos h.2]
  simp [levelString_fatal]

/-- C7 witness: in the fresh state Fatal writes its line and exits with
code 1. -/
theorem C7_fatal_writes_and_exits_w :
    (DebugLevel ≤ initialState.threshold ∧ initialState.threshold ≤ FatalLevel) ∧
    ((Fatal "boom" [] initialState).1).output =
      [{ level := "fatal", msg := "boom", fields := [] }] ∧
    (Fatal "boom" [] initialState).2 = 1 := by
  refine ⟨⟨by decide, by decide⟩, ?_, ?_⟩
  · have h1 := (C7_fatal_writes_and_exits initialState "boom" [] ⟨by decide, by decide⟩).1
    simpa using h1
  · exact (C7_fatal_writes_and_exits initialState "boom" [] ⟨by decide, by decide⟩).2.1

/-- C8: the threshold starts at InfoLevel, and after any sequence of
SetLogLevel and Init calls with arbitrary inputs the threshold is still
inside the Severity range and GetLogLevel returns one of the seven
canonical severity names. -/
theorem C8_threshold_always_enumerated (calls : List ApiCall) :
    initialState.threshold = InfoLevel ∧
    DebugLevel ≤ (runCalls calls).threshold ∧
    (runCalls calls).threshold ≤ FatalLevel ∧
    GetLogLevel (runCalls calls) ∈ severityNames := by
  have key : ∀ (cs : List ApiCall) (st : LoggerState), thresholdInRange st →
      thresholdInRange (cs.foldl applyCall st) := by
    intro cs
    induction cs with
    | nil => intro st h; exact h
    | cons c cs ih =>
        intro st h
        apply ih
        cases c with
        | set s => exact setLogLevel_range s st h
        | initEnv s => exact init_range s st h
  have hr : thresholdInRange (runCalls calls) :=
    key calls initialState ⟨by decide, by decide⟩
  refine ⟨rfl, hr.1, hr.2, ?_⟩
  obtain ⟨h1, h2⟩ := hr
  unfold GetLogLevel
  have h1a : (-1 : Int) ≤ (runCalls calls).threshold := h1
  have h2a : (runCalls calls).threshold ≤ (5 : Int) := h2
  set t := (runCalls calls).threshold with ht
  interval_cases t <;> decide

/-- C9: SetLogLevel on the empty string does not fail: the empty string is
not an alias but the zap fallback parse accepts it and yields InfoLevel,
which becomes the new threshold. -/
theorem C9_setLogLevel_empty (st : LoggerState) :
    SetLogLevel "" st = (none, { st with threshold := InfoLevel }) := by
  have h : parseLevel "" = some InfoLevel := rfl
  simp [SetLogLevel, h]

/-- C10: SetLogLevel and Init never change the encoder configuration, and
GetLogLevel depends on nothing but the threshold; the configuration of
the fresh state is exactly the one fixed by the package init function:
JSON encoding, timestamp key, ISO8601 times, caller information,
standard output. -/
theorem C10_config_frame (s : String) (st : LoggerState) :
    ((SetLogLevel s st).2).config = st.config ∧
    (Init s st).config = st.config ∧
    (∀ st1 : LoggerState, st1.threshold = st.threshold → GetLogLevel st1 = GetLogLevel st) ∧
    initialState.config =
      { encoding := "json", timeKey := "timestamp", timeEncoding := "ISO8601",
        withCaller := true, sink := "stdout" } := by
  refine ⟨setLogLevel_config s st, ?_, ?_, rfl⟩
  · unfold Init
    split_ifs with hne
    · have hc := setLogLevel_config s st
      cases hset : SetLogLevel s st with
      | mk e st1 =>
        rw [hset] at hc
        cases e with
        | some err => simpa [Warn, emit_config] using hc
        | none => simpa [Info, emit_config] using hc
    · simp [Info, emit_config]
  · intro st1 h1
    unfold GetLogLevel
    rw [h1]

/-- C10 witness: a concrete SetLogLevel and Init call leave the fresh
configuration untouched. -/
theorem C10_config_frame_w :
    ((SetLogLevel "debug" initialState).2).config = initialState.config ∧
    (Init "debug" initialState).config = initialState.config :=
  ⟨(C10_config_frame "debug" initialState).1,
    (C10_config_frame "debug" initialState).2.1⟩

end Logger
